import Mathlib

/-!
Verification development for `GetIdracLcLogsREDFISH.py`: a shallow embedding of
the script's pagination-and-filter retrieval loops, entry filters, response
classification, sink formatting, TLS-flag plumbing and firmware-version
detection, with theorems settling the specification claims about them.

Python strings are modelled as Lean `String`s, but every Python string
operation (`lower`, `split`, `in`, `replace`, `int`) is given an explicit
executable model over the character list, because the claims are settled by
evaluation on concrete inputs.
-/

/-- Model of Python `str.lower()` (ASCII case folding over the characters). -/
def pyLower (s : String) : String := ⟨s.data.map Char.toLower⟩

/-- `leadsWith needle hay` is true when `hay` starts with `needle`. -/
def leadsWith : List Char → List Char → Bool
  | [], _ => true
  | _ :: _, [] => false
  | a :: as, b :: bs => a == b && leadsWith as bs

/-- `containsSub hay needle` is true when `needle` occurs contiguously inside
`hay`: the model of Python's `needle in hay` on strings. -/
def containsSub : List Char → List Char → Bool
  | [], needle => needle.isEmpty
  | b :: bs, needle => leadsWith needle (b :: bs) || containsSub bs needle

/-- Model of Python `needle in hay` for strings (substring containment). -/
def strContains (hay needle : String) : Bool := containsSub hay.data needle.data

/-- Model of Python `s.split(".")` (single-character separator): splitting the
character list at every dot; the empty string splits to `[[]]`, as in Python. -/
def splitOnDot : List Char → List (List Char)
  | [] => [[]]
  | c :: rest =>
    let r := splitOnDot rest
    if c = '.' then [] :: r
    else
      match r with
      | [] => [[c]]
      | g :: gs => (c :: g) :: gs

/-- Last element of a list of character lists, defaulting to `[]`; models the
Python indexing `[-1]` (the split result is never empty). -/
def lastD : List (List Char) → List Char
  | [] => []
  | [a] => a
  | _ :: b :: rest => lastD (b :: rest)

/-- Model of Python `s.split(".")[-1]`. -/
def pyLastDotSegment (s : String) : String := ⟨lastD (splitOnDot s.data)⟩

/-- Model of Python `s.replace(".", "")`: remove every dot. -/
def pyRemoveDots (s : String) : String := ⟨s.data.filter (fun c => !(c == '.'))⟩

def digitsToNatAux : List Char → Nat → Option Nat
  | [], acc => some acc
  | c :: rest, acc =>
    if c.isDigit then digitsToNatAux rest (acc * 10 + (c.toNat - 48)) else none

/-- Model of Python `int(s)` on the digit strings the script feeds it:
`some` of the decimal value when `s` is a non-empty digit string, `none`
(a `ValueError`) otherwise. -/
def pyInt (s : String) : Option Nat :=
  match s.data with
  | [] => none
  | c :: cs => digitsToNatAux (c :: cs) 0

/-- One lifecycle-log record: the ordered top-level field/value pairs the
script iterates with `i.items()` (values rendered as the strings `"%s"`
produces), plus the nested vendor field `i["Oem"]["Dell"]["Category"]` that
only the category filter reads. -/
structure LogEntry where
  attrs : List (String × String)
  oemDellCategory : String
deriving DecidableEq

/-- One decoded HTTP response as the script consumes it: the status code, the
`Members` array when the body has that key, and the error text at
`data["error"]["@Message.ExtendedInfo"][0]["Message"]` that the non-200
branches pattern-match. -/
structure HttpResponse where
  status : Nat
  members : Option (List LogEntry)
  errMessage : String
deriving DecidableEq

/-- How a skip-loop walk terminated.
`completed`: the offset list was exhausted (the 2000-page cap).
`emptyPage`: the `"Members" not in data or data["Members"] == []` break.
`http500`: the `status_code == 500` early exit.
`skipOutOfRange`: a non-200 response whose error text matched an end-of-log
substring. `fatal`: any other non-200 response (logged and exited).
`keyError`: `data["Members"]` was accessed on a body without that key
(a Python `KeyError` crash). -/
inductive StopKind where
  | completed
  | emptyPage
  | http500
  | skipOutOfRange
  | fatal (status : Nat)
  | keyError
deriving DecidableEq

/-- Result of one walk: recorded entries in the order they were written, the
stop condition, and the `$skip` offsets actually fetched, in request order. -/
structure WalkOut where
  recorded : List LogEntry
  stop : StopKind
  offsets : List Nat
deriving DecidableEq

/-- The literal end-of-log substring checked in every retrieval mode. -/
def skipRangeMsg : String := "query parameter $skip is out of range"

/-- The second end-of-log substring, checked only in the fail-keyword,
message-ID and category modes. -/
def internalErrMsg : String := "internal error"

/-- `number_list = [i for i in range(1, 100001) if i % 50 == 0]`: the `$skip`
offsets every mode's loop iterates (lines 161, 220, 305, 389). -/
def numberList : List Nat := (List.range' 1 100000).filter (fun i => i % 50 == 0)

/-- Classification of one skip-loop response. `okPage` carries the `Members`
value of a 200 body; `endOfLogStop` is a successful stop; `fatalStop` carries
the surfaced status code and error body text. -/
inductive FetchKind where
  | okPage (members : Option (List LogEntry))
  | endOfLogStop
  | fatalStop (status : Nat) (errMessage : String)
deriving DecidableEq

/-- Response classification of the `--get-all` skip loop (lines 168-179):
500 stops successfully; any other non-200 stops successfully only when the
error text contains the skip-out-of-range substring, else it is fatal. -/
def classify_get_all (r : HttpResponse) : FetchKind :=
  if r.status = 500 then .endOfLogStop
  else if r.status ≠ 200 then
    if strContains r.errMessage skipRangeMsg then .endOfLogStop
    else .fatalStop r.status r.errMessage
  else .okPage r.members

/-- Response classification of the fail-keyword, message-ID and category skip
loops (lines 227-247, 312-332, 396-421): as `classify_get_all`, but a non-200
response is also an end-of-log stop when the error text contains
`"internal error"`. -/
def classify_keyword_modes (r : HttpResponse) : FetchKind :=
  if r.status = 500 then .endOfLogStop
  else if r.status ≠ 200 then
    if strContains r.errMessage skipRangeMsg || strContains r.errMessage internalErrMsg then
      .endOfLogStop
    else .fatalStop r.status r.errMessage
  else .okPage r.members

/-- The fail-keyword test on one `Message` value (line 212, with the source's
duplicated `"fail"` check kept): case-insensitive substring search for
`unable`, `fail`, `fail`, `error`. -/
def keywordMatch (v : String) : Bool :=
  strContains (pyLower v) "unable" || strContains (pyLower v) "fail" ||
    strContains (pyLower v) "fail" || strContains (pyLower v) "error"

/-- Lines 209-219 / 250-260: for each `("Message", v)` item of the entry with
a keyword hit, the whole entry is recorded (once per such item, matching the
source's `count += 1` and write inside the item loop). -/
def processFailEntry (e : LogEntry) : List LogEntry :=
  ((e.attrs.filter (fun ii => ii.1 == "Message" && keywordMatch ii.2)).map (fun _ => e))

/-- Lines 293-296 / 338-341: under the "new" convention the message ID is the
final dot-separated segment of the raw field; under any other detected value
("old") the raw field is used verbatim. -/
def normalize_message_id (version raw : String) : String :=
  if version = "new" then pyLastDotSegment raw else raw

/-- Line 297 / 342: the normalized ID, lowercased, must be a substring of the
lowercased caller-supplied comma-separated ID list. -/
def message_id_match (arg version raw : String) : Bool :=
  strContains (pyLower arg) (pyLower (normalize_message_id version raw))

/-- Lines 290-304 / 335-349: record the entry once per `("MessageId", v)` item
whose normalized value passes `message_id_match`. -/
def processMessageIdEntry (version arg : String) (e : LogEntry) : List LogEntry :=
  ((e.attrs.filter (fun ii => ii.1 == "MessageId" && message_id_match arg version ii.2)).map
    (fun _ => e))

/-- The supported `--get-category` values (line 362). -/
def validCategories : List String :=
  ["audit", "configuration", "updates", "systemhealth", "storage"]

/-- Line 383 / 423: `i["Oem"]["Dell"]["Category"].lower() == args["get_category"]`.
The nested field is lowercased; the argument is compared as supplied. -/
def categoryPred (arg : String) (e : LogEntry) : Bool :=
  pyLower e.oemDellCategory == arg

/-- The `--get-all` skip loop (lines 162-187), one step per remaining offset:
500 exits successfully; other non-200 exits successfully on the
skip-out-of-range substring, else fatally; a 200 body with `Members` missing
or empty (or status 400) breaks; otherwise every member is recorded and the
loop continues. -/
def getAllLoop (t : Nat → HttpResponse) : List Nat → WalkOut
  | [] => ⟨[], .completed, []⟩
  | seq :: rest =>
    if (t seq).status = 500 then ⟨[], .http500, [seq]⟩
    else if (t seq).status ≠ 200 then
      if strContains (t seq).errMessage skipRangeMsg then ⟨[], .skipOutOfRange, [seq]⟩
      else ⟨[], .fatal (t seq).status, [seq]⟩
    else if (t seq).members = none ∨ (t seq).members = some [] ∨ (t seq).status = 400 then
      ⟨[], .emptyPage, [seq]⟩
    else
      let res := getAllLoop t rest
      ⟨(t seq).members.getD [] ++ res.recorded, res.stop, seq :: res.offsets⟩

/-- `get_LC_logs` (lines 136-189): the initial unfiltered fetch (offset 0
implicit) exits fatally on any non-200 status, records every member of the
first page, then runs the skip loop over `number_list`. -/
def get_LC_logs (t : Nat → HttpResponse) : WalkOut :=
  if (t 0).status ≠ 200 then ⟨[], .fatal (t 0).status, [0]⟩
  else
    match (t 0).members with
    | none => ⟨[], .keyError, [0]⟩
    | some ms =>
      let res := getAllLoop t numberList
      ⟨ms ++ res.recorded, res.stop, 0 :: res.offsets⟩

/-- The `--get-fail` skip loop (lines 221-260): like `getAllLoop` but the
non-200 branch also accepts `"internal error"` as end-of-log, the break
condition repeats the (dead) 400/500 status tests, and only keyword-matching
entries are recorded. -/
def failLoop (t : Nat → HttpResponse) : List Nat → WalkOut
  | [] => ⟨[], .completed, []⟩
  | seq :: rest =>
    if (t seq).status = 500 then ⟨[], .http500, [seq]⟩
    else if (t seq).status ≠ 200 then
      if strContains (t seq).errMessage skipRangeMsg ||
          strContains (t seq).errMessage internalErrMsg then
        ⟨[], .skipOutOfRange, [seq]⟩
      else ⟨[], .fatal (t seq).status, [seq]⟩
    else if (t seq).members = none ∨ (t seq).members = some [] ∨ (t seq).status = 400 ∨
        (t seq).status = 500 then
      ⟨[], .emptyPage, [seq]⟩
    else
      let res := failLoop t rest
      ⟨((t seq).members.getD []).flatMap processFailEntry ++ res.recorded, res.stop,
        seq :: res.offsets⟩

/-- `get_LC_log_failures` (lines 191-270): the initial fetch has no status
check at all; `data['Members']` is read directly (a missing key crashes), its
keyword hits are recorded, then the skip loop runs. -/
def get_LC_log_failures (t : Nat → HttpResponse) : WalkOut :=
  match (t 0).members with
  | none => ⟨[], .keyError, [0]⟩
  | some ms =>
    let res := failLoop t numberList
    ⟨ms.flatMap processFailEntry ++ res.recorded, res.stop, 0 :: res.offsets⟩

/-- The `--get-message-id` skip loop (lines 306-349): structurally the
fail-keyword loop with the message-ID predicate. `version` is the global
`iDRAC_version` value, assumed bound (see the version-detection model for the
unbound case). -/
def messageIdLoop (version arg : String) (t : Nat → HttpResponse) : List Nat → WalkOut
  | [] => ⟨[], .completed, []⟩
  | seq :: rest =>
    if (t seq).status = 500 then ⟨[], .http500, [seq]⟩
    else if (t seq).status ≠ 200 then
      if strContains (t seq).errMessage skipRangeMsg ||
          strContains (t seq).errMessage internalErrMsg then
        ⟨[], .skipOutOfRange, [seq]⟩
      else ⟨[], .fatal (t seq).status, [seq]⟩
    else if (t seq).members = none ∨ (t seq).members = some [] ∨ (t seq).status = 400 ∨
        (t seq).status = 500 then
      ⟨[], .emptyPage, [seq]⟩
    else
      let res := messageIdLoop version arg t rest
      ⟨((t seq).members.getD []).flatMap (processMessageIdEntry version arg) ++ res.recorded,
        res.stop, seq :: res.offsets⟩

/-- `get_message_id` (lines 272-359): initial fetch without status check, then
the skip loop. -/
def get_message_id (version arg : String) (t : Nat → HttpResponse) : WalkOut :=
  match (t 0).members with
  | none => ⟨[], .keyError, [0]⟩
  | some ms =>
    let res := messageIdLoop version arg t numberList
    ⟨ms.flatMap (processMessageIdEntry version arg) ++ res.recorded, res.stop, 0 :: res.offsets⟩

/-- The `--get-category` skip loop (lines 390-428). It has NO empty-members
break: after the non-200 handling it iterates `data['Members']` directly, so
an empty page contributes nothing and the loop continues, and a 200 body
without `Members` is a `KeyError` crash. -/
def categoryLoop (arg : String) (t : Nat → HttpResponse) : List Nat → WalkOut
  | [] => ⟨[], .completed, []⟩
  | seq :: rest =>
    if (t seq).status = 500 then ⟨[], .http500, [seq]⟩
    else if (t seq).status ≠ 200 then
      if strContains (t seq).errMessage skipRangeMsg ||
          strContains (t seq).errMessage internalErrMsg then
        ⟨[], .skipOutOfRange, [seq]⟩
      else ⟨[], .fatal (t seq).status, [seq]⟩
    else
      match (t seq).members with
      | none => ⟨[], .keyError, [seq]⟩
      | some ms =>
        let res := categoryLoop arg t rest
        ⟨ms.filter (categoryPred arg) ++ res.recorded, res.stop, seq :: res.offsets⟩

/-- `get_category_entries` (lines 361-438): the argument is validated
case-insensitively against the supported categories before any request
(`none` models the pre-network `InvalidArgument` exit); then the initial
fetch (no status check) and the skip loop. -/
def get_category_entries (arg : String) (t : Nat → HttpResponse) : Option WalkOut :=
  if pyLower arg ∉ validCategories then none
  else
    some
      (match (t 0).members with
      | none => ⟨[], .keyError, [0]⟩
      | some ms =>
        let res := categoryLoop arg t numberList
        ⟨ms.filter (categoryPred arg) ++ res.recorded, res.stop, 0 :: res.offsets⟩)

/-- Whether `lc_log_failures.txt` exists after `get_LC_log_failures` ends with
the given walk result. Lines 227-230: the 500 path closes the file and exits
without deleting it. Lines 232-244: the recognized non-200 end-of-log path
deletes it when `count == 0`. Lines 245-247: the fatal path exits leaving the
file. Lines 261-270 (loop exhausted or empty-page break): deleted when
`count == 0`. A `KeyError` crash leaves the partially written file. -/
def fail_file_after (w : WalkOut) : Bool :=
  match w.stop with
  | .http500 => true
  | .skipOutOfRange => if w.recorded.length = 0 then false else true
  | .fatal _ => true
  | .emptyPage => if w.recorded.length = 0 then false else true
  | .completed => if w.recorded.length = 0 then false else true
  | .keyError => true

/-- Whether `lc_log_failures.txt` exists after running `--get-fail` against
the transport. -/
def fail_run_file_exists (t : Nat → HttpResponse) : Bool :=
  fail_file_after (get_LC_log_failures t)

/-- Whether `message_id_entries.txt` exists after `get_message_id` ends with
the given walk result (lines 312-315, 317-329, 330-332, 350-359: the same
exit paths as the fail mode). -/
def message_id_file_after (w : WalkOut) : Bool :=
  match w.stop with
  | .http500 => true
  | .skipOutOfRange => if w.recorded.length = 0 then false else true
  | .fatal _ => true
  | .emptyPage => if w.recorded.length = 0 then false else true
  | .completed => if w.recorded.length = 0 then false else true
  | .keyError => true

/-- Whether `message_id_entries.txt` exists after running `--get-message-id`. -/
def message_id_run_file_exists (version arg : String) (t : Nat → HttpResponse) : Bool :=
  message_id_file_after (get_message_id version arg t)

/-- Whether `category_entries.txt` exists after `get_category_entries` ends
with the given walk result. Unlike the other two scan modes, the 500 path
(lines 396-404) deletes the file when `count == 0`. Lines 405-418: the
recognized non-200 path deletes it when `count == 0`; lines 419-421: the
fatal path exits leaving the file; lines 429-438: loop exhaustion deletes it
when `count == 0`. The category loop never breaks on an empty page, so the
`emptyPage` arm is unreachable. -/
def category_file_after (w : WalkOut) : Bool :=
  match w.stop with
  | .http500 => if w.recorded.length = 0 then false else true
  | .skipOutOfRange => if w.recorded.length = 0 then false else true
  | .fatal _ => true
  | .emptyPage => true
  | .completed => if w.recorded.length = 0 then false else true
  | .keyError => true

/-- Whether `category_entries.txt` exists after running `--get-category`;
`false` when the argument fails validation (the file is never created). -/
def category_run_file_exists (arg : String) (t : Nat → HttpResponse) : Bool :=
  match get_category_entries arg t with
  | none => false
  | some w => category_file_after w

/-- The entry concatenation a faultless walk over the given offsets delivers:
members of each fetched page in page order, then in-page order. -/
def concatMembers (t : Nat → HttpResponse) : List Nat → List LogEntry
  | [] => []
  | x :: xs => ((t x).members.getD []) ++ concatMembers t xs

/-- The fail-keyword matches a faultless walk over the given offsets records:
the keyword-matching entries of each fetched page in page order, then in-page
order. -/
def concatFailMatches (t : Nat → HttpResponse) : List Nat → List LogEntry
  | [] => []
  | x :: xs => ((t x).members.getD []).flatMap processFailEntry ++ concatFailMatches t xs

/-- The message-ID matches a faultless walk over the given offsets records:
the ID-matching entries of each fetched page in page order, then in-page
order. -/
def concatMessageIdMatches (version arg : String) (t : Nat → HttpResponse) :
    List Nat → List LogEntry
  | [] => []
  | x :: xs =>
    ((t x).members.getD []).flatMap (processMessageIdEntry version arg) ++
      concatMessageIdMatches version arg t xs

/-- The offsets invariant of one full walk: the fetched offsets are exactly
the implicit offset 0 followed by the first `k ≤ 2000` positive multiples of
50; they are strictly increasing (no offset is fetched twice), each is a
multiple of 50 bounded by 100000, and at most 2000 skip fetches (2001 fetches
in all) are performed. -/
def offsetsSpec (offs : List Nat) : Prop :=
  ∃ k, k ≤ 2000 ∧ offs = 0 :: (List.range k).map (fun j => 50 * j + 50) ∧
    offs.Pairwise (· < ·) ∧ (∀ x ∈ offs, x % 50 = 0 ∧ x ≤ 100000) ∧ offs.length ≤ 2001

/-- The text the per-item write loop produces for one entry (lines 157-159,
184-186, 214-217, 255-258, 299-302, 344-347): one `"%s: %s\n"` line per
`items()` pair, in order. -/
def writeEntryItems : List (String × String) → String
  | [] => ""
  | ii :: rest => ii.1 ++ ": " ++ ii.2 ++ "\n" ++ writeEntryItems rest

/-- Per-entry file output in `--get-all` mode (lines 155-160, 182-187): the
item lines followed by the separating blank line. -/
def record_all (e : LogEntry) : String := writeEntryItems e.attrs ++ "\n"

/-- Per-entry file output in `--get-fail` mode (lines 214-219, 255-260). -/
def record_fail (e : LogEntry) : String := writeEntryItems e.attrs ++ "\n"

/-- Per-entry file output in `--get-message-id` mode (lines 299-304, 344-349). -/
def record_messageid (e : LogEntry) : String := writeEntryItems e.attrs ++ "\n"

/-- Model of Python `str(i)` on a flat string-valued dict: the
`\x7b'k': 'v', ...\x7d` repr that `open_file.writelines(str(i))` emits. -/
def pyDictRepr (e : LogEntry) : String :=
  "\x7b" ++
    String.intercalate ", "
      (e.attrs.map (fun ii => "\x27" ++ ii.1 ++ "\x27: \x27" ++ ii.2 ++ "\x27")) ++
    "\x7d"

/-- Per-entry file output in `--get-category` mode (lines 386-387, 426-427):
`str(i)` followed by two newlines, not field/value lines. -/
def record_category (e : LogEntry) : String := pyDictRepr e ++ "\n\n"

/-- Modelled from the spec: "writes a human-readable `field: value` line per
attribute to a session output file, with a blank line separating entries" —
the concatenation of one `name: value` line per attribute, then a blank
line. -/
def specFieldValueBlock (e : LogEntry) : String :=
  ((e.attrs.map (fun ii => ii.1 ++ ": " ++ ii.2 ++ "\n")).foldr (· ++ ·) "") ++ "\n"

/-- The three severity filter URIs (lines 93-98). -/
def uriSeverityOK : String :=
  "redfish/v1/Managers/iDRAC.Embedded.1/Logs/Lclog?$filter=Severity eq \x27OK\x27"

def uriSeverityCritical : String :=
  "redfish/v1/Managers/iDRAC.Embedded.1/Logs/Lclog?$filter=Severity eq \x27Critical\x27"

def uriSeverityWarning : String :=
  "redfish/v1/Managers/iDRAC.Embedded.1/Logs/Lclog?$filter=Severity eq \x27Warning\x27"

/-- `get_specific_severity_logs` argument handling (lines 92-101): the filter
URI that will be requested, or `none` for the `InvalidArgument` exit taken
before any request is issued. -/
def get_specific_severity_logs (arg : String) : Option String :=
  if pyLower arg = "informational" then some uriSeverityOK
  else if pyLower arg = "critical" then some uriSeverityCritical
  else if pyLower arg = "warning" then some uriSeverityWarning
  else none

/-- Resolution of the `--ssl` argument into `verify_cert` (lines 450-458):
`"true"` (case-insensitive) enables verification; anything else, or an absent
argument, disables it. -/
def resolve_verify_cert (ssl : Option String) : Bool :=
  match ssl with
  | some v => if pyLower v = "true" then true else if pyLower v = "false" then false else false
  | none => false

/-- The `verify=` value passed on the Lclog requests (lines 63-65, 147-149,
164-166, and all other list fetches): always the resolved toggle, in both the
token and basic-auth branches. -/
def verify_flag_lclog_request (verify_cert : Bool) (_useToken : Bool) : Bool :=
  verify_cert

/-- The `verify=` value passed on the firmware-version request inside
`get_iDRAC_version` (lines 76-79): the token branch passes the toggle, but
the basic-auth branch passes the literal `False`. -/
def verify_flag_firmware_request (verify_cert : Bool) (useToken : Bool) : Bool :=
  if useToken then verify_cert else false

/-- Outcome of `get_iDRAC_version` (lines 74-90) for the global
`iDRAC_version`. `unassigned`: the 401 branch logs and returns without
assigning. `exited`: any other non-200 calls `sys.exit`. `crashed`: the
firmware string fails `int()`. `assigned v`: a 200 response sets the global
to `"new"` or `"old"`. -/
inductive VersionOutcome where
  | unassigned
  | exited
  | crashed
  | assigned (v : String)
deriving DecidableEq

/-- `get_iDRAC_version` (lines 74-90): dots are stripped from
`FirmwareVersion`, the result parsed as an integer and compared against
`6000000`. -/
def get_iDRAC_version (status : Nat) (fw : String) : VersionOutcome :=
  if status = 401 then .unassigned
  else if status ≠ 200 then .exited
  else
    match pyInt (pyRemoveDots fw) with
    | none => .crashed
    | some n => if n ≥ 6000000 then .assigned "new" else .assigned "old"

/-- The value of the global `iDRAC_version` after `get_iDRAC_version`:
bound only on the `assigned` outcome. -/
def iDRAC_version_after : VersionOutcome → Option String
  | .assigned v => some v
  | _ => none

/-- The message-ID normalization as executed against the global: reading an
unbound `iDRAC_version` (lines 293, 338) is a `NameError`, modelled as
`none`. -/
def normalize_with_global (g : Option String) (raw : String) : Option String :=
  match g with
  | none => none
  | some v => some (normalize_message_id v raw)

/-- A distinguishable log entry for concrete transports. -/
def mkEntry (n : Nat) : LogEntry := ⟨[("RecordId", toString n)], "System Health"⟩

/-- Page `k` of the five-page mock log: entries `50k` to `50k + 49`. -/
def pageAt (k : Nat) : List LogEntry := (List.range 50).map (fun j => mkEntry (50 * k + j))

/-- Mock transport delivering 5 pages of 50 entries (offsets 0 to 200), then
empty-member 200 pages. -/
def t250 : Nat → HttpResponse := fun off =>
  if off < 250 then ⟨200, some (pageAt (off / 50)), ""⟩ else ⟨200, some [], ""⟩

/-- An entry in the `Audit` category. -/
def auditEntry : LogEntry := ⟨[("Message", "user login"), ("MessageId", "USR0030")], "Audit"⟩

/-- Mock transport for the category walk: empty 200 pages at offsets 0 and 50,
an `Audit` entry at offset 100, then skip-out-of-range errors. -/
def tCat : Nat → HttpResponse := fun off =>
  if off = 100 then ⟨200, some [auditEntry], ""⟩
  else if off ≤ 50 then ⟨200, some [], ""⟩
  else ⟨404, none, skipRangeMsg⟩

/-- Mock transport: an empty 200 first page, then HTTP 500 on the first skip
fetch. -/
def t500 : Nat → HttpResponse := fun off =>
  if off = 0 then ⟨200, some [], ""⟩ else ⟨500, none, ""⟩

/-- Mock transport: an empty 200 first page, then a skip-out-of-range 400 on
the first skip fetch. -/
def tSkip0 : Nat → HttpResponse := fun off =>
  if off = 0 then ⟨200, some [], ""⟩ else ⟨400, none, skipRangeMsg⟩

/-- Mock transport: one page holding the `Audit` entry, then
skip-out-of-range. -/
def tCatAudit : Nat → HttpResponse := fun off =>
  if off = 0 then ⟨200, some [auditEntry], ""⟩ else ⟨404, none, skipRangeMsg⟩

/-- An entry whose `Message` contains the keyword `unable`. -/
def failEntryA : LogEntry :=
  ⟨[("Message", "Unable to configure NIC"), ("MessageId", "NIC0001")], "Configuration"⟩

/-- An entry whose `Message` contains no failure keyword. -/
def okEntryB : LogEntry :=
  ⟨[("Message", "Configuration applied successfully"), ("MessageId", "CFG0002")], "Configuration"⟩

/-- An entry whose `Message` contains the keyword `error`. -/
def failEntryC : LogEntry :=
  ⟨[("Message", "RAID rebuild error detected"), ("MessageId", "STOR09")], "Storage"⟩

/-- Mock transport with a mix of failing and clean entries: two pages, then
empty-member 200 pages. -/
def tMix : Nat → HttpResponse := fun off =>
  if off = 0 then ⟨200, some [failEntryA, okEntryB], ""⟩
  else if off = 50 then ⟨200, some [okEntryB, failEntryC], ""⟩
  else ⟨200, some [], ""⟩

/-! ## Helper lemmas -/

theorem leadsWith_iff (n : List Char) : ∀ h : List Char, leadsWith n h = true ↔ ∃ r, h = n ++ r := by
  induction n with
  | nil =>
    intro h
    simp [leadsWith]
  | cons a as ih =>
    intro h
    cases h with
    | nil =>
      simp [leadsWith]
    | cons b bs =>
      rw [leadsWith, Bool.and_eq_true, beq_iff_eq, ih bs]
      constructor
      · rintro ⟨rfl, r, rfl⟩
        exact ⟨r, rfl⟩
      · rintro ⟨r, hr⟩
        rw [List.cons_append] at hr
        cases hr
        exact ⟨rfl, r, rfl⟩

theorem containsSub_iff (h n : List Char) :
    containsSub h n = true ↔ ∃ p q, h = p ++ n ++ q := by
  induction h with
  | nil =>
    rw [containsSub]
    constructor
    · intro he
      refine ⟨[], [], ?_⟩
      have : n = [] := by
        cases n with
        | nil => rfl
        | cons c cs => simp [List.isEmpty] at he
      simp [this]
    · rintro ⟨p, q, hpq⟩
      have hp : p = [] := by cases p <;> simp_all
      have hn : n = [] := by subst hp; cases n <;> simp_all
      simp [hn, List.isEmpty]
  | cons b bs ih =>
    rw [containsSub, Bool.or_eq_true, leadsWith_iff, ih]
    constructor
    · rintro (⟨r, hr⟩ | ⟨p, q, hpq⟩)
      · exact ⟨[], r, by simp [hr]⟩
      · exact ⟨b :: p, q, by simp [hpq]⟩
    · rintro ⟨p, q, hpq⟩
      cases p with
      | nil =>
        exact Or.inl ⟨q, by simpa using hpq⟩
      | cons x p =>
        rw [List.cons_append, List.cons_append] at hpq
        cases hpq
        exact Or.inr ⟨p, q, rfl⟩

theorem strContains_iff (hay needle : String) :
    strContains hay needle = true ↔ ∃ p q, hay.data = p ++ needle.data ++ q :=
  containsSub_iff hay.data needle.data

theorem filter_block (n : Nat) :
    (List.range' (50 * n + 1) 50).filter (fun i => i % 50 == 0) = [50 * n + 50] := by
  have h49 : (50 * n + 1) + 49 = 50 * n + 50 := by omega
  have hsplit : List.range' (50 * n + 1) 50 = List.range' (50 * n + 1) 49 ++ [50 * n + 50] := by
    have := List.range'_1_concat (50 * n + 1) 49
    simpa [h49] using this
  rw [hsplit, List.filter_append]
  have hnil : (List.range' (50 * n + 1) 49).filter (fun i => i % 50 == 0) = [] := by
    rw [List.filter_eq_nil_iff]
    intro a ha
    rw [List.mem_range'_1] at ha
    simp only [beq_iff_eq]
    omega
  have hone : (50 * n + 50) % 50 = 0 := by omega
  simp [hnil, hone]

theorem filter_blocks (m : Nat) :
    (List.range' 1 (50 * m)).filter (fun i => i % 50 == 0) =
      (List.range m).map (fun j => 50 * j + 50) := by
  induction m with
  | zero => simp
  | succ k ih =>
    have hsplit : List.range' 1 (50 * (k + 1)) =
        List.range' 1 (50 * k) ++ List.range' (1 + 50 * k) 50 := by
      rw [show 50 * (k + 1) = 50 + 50 * k from by omega]
      exact (List.range'_append_1 1 (50 * k) 50).symm
    have harg : (1 : Nat) + 50 * k = 50 * k + 1 := by omega
    rw [hsplit, List.filter_append, ih, harg, filter_block, List.range_succ]
    simp

/-- The offset comprehension in closed form: the 2000 values 50, 100, ..., 100000. -/
theorem numberList_eq : numberList = (List.range 2000).map (fun j => 50 * j + 50) := by
  have := filter_blocks 2000
  simpa [numberList] using this

theorem numberList_len : numberList.length = 2000 := by
  rw [numberList_eq]
  simp

/-- The offsets a get-all skip walk fetches form an initial segment of the
offset list: the walk never skips ahead and never revisits. -/
theorem getAllLoop_offsets_take (t : Nat → HttpResponse) :
    ∀ l : List Nat, ∃ k, k ≤ l.length ∧ (getAllLoop t l).offsets = l.take k := by
  intro l
  induction l with
  | nil => exact ⟨0, by simp [getAllLoop]⟩
  | cons seq rest ih =>
    rw [getAllLoop]
    by_cases h5 : (t seq).status = 500
    · exact ⟨1, by simp, by simp [h5]⟩
    · by_cases h2 : (t seq).status ≠ 200
      · by_cases hc : strContains (t seq).errMessage skipRangeMsg
        · exact ⟨1, by simp, by simp [h5, h2, hc]⟩
        · exact ⟨1, by simp, by simp [h5, h2, hc]⟩
      · by_cases hm : (t seq).members = none ∨ (t seq).members = some [] ∨ (t seq).status = 400
        · exact ⟨1, by simp, by simp [h5, h2, hm]⟩
        · obtain ⟨k, hk, hoff⟩ := ih
          refine ⟨k + 1, by simpa using Nat.succ_le_succ hk, ?_⟩
          simp [h5, h2, hm, hoff]

/-- The offsets a fail-keyword skip walk fetches form an initial segment of
the offset list. -/
theorem failLoop_offsets_take (t : Nat → HttpResponse) :
    ∀ l : List Nat, ∃ k, k ≤ l.length ∧ (failLoop t l).offsets = l.take k := by
  intro l
  induction l with
  | nil => exact ⟨0, by simp [failLoop]⟩
  | cons seq rest ih =>
    rw [failLoop]
    by_cases h5 : (t seq).status = 500
    · exact ⟨1, by simp, by simp [h5]⟩
    · by_cases h2 : (t seq).status ≠ 200
      · by_cases hc : (strContains (t seq).errMessage skipRangeMsg ||
            strContains (t seq).errMessage internalErrMsg : Bool)
        · exact ⟨1, by simp, by simp [h5, h2, hc]⟩
        · exact ⟨1, by simp, by simp [h5, h2, hc]⟩
      · have h200 : (t seq).status = 200 := not_ne_iff.mp h2
        by_cases hm : (t seq).members = none ∨ (t seq).members = some [] ∨
            (t seq).status = 400 ∨ (t seq).status = 500
        · rcases hm with h | h | h | h
          · exact ⟨1, by simp, by simp [h5, h2, h]⟩
          · exact ⟨1, by simp, by simp [h5, h2, h]⟩
          · rw [h200] at h
            exact absurd h (by decide)
          · exact absurd h h5
        · push_neg at hm
          obtain ⟨k, hk, hoff⟩ := ih
          refine ⟨k + 1, by simpa using Nat.succ_le_succ hk, ?_⟩
          simp [h5, h2, hm.1, hm.2.1, hm.2.2.1, hoff]

/-- The offsets a message-ID skip walk fetches form an initial segment of the
offset list. -/
theorem messageIdLoop_offsets_take (version arg : String) (t : Nat → HttpResponse) :
    ∀ l : List Nat, ∃ k, k ≤ l.length ∧ (messageIdLoop version arg t l).offsets = l.take k := by
  intro l
  induction l with
  | nil => exact ⟨0, by simp [messageIdLoop]⟩
  | cons seq rest ih =>
    rw [messageIdLoop]
    by_cases h5 : (t seq).status = 500
    · exact ⟨1, by simp, by simp [h5]⟩
    · by_cases h2 : (t seq).status ≠ 200
      · by_cases hc : (strContains (t seq).errMessage skipRangeMsg ||
            strContains (t seq).errMessage internalErrMsg : Bool)
        · exact ⟨1, by simp, by simp [h5, h2, hc]⟩
        · exact ⟨1, by simp, by simp [h5, h2, hc]⟩
      · have h200 : (t seq).status = 200 := not_ne_iff.mp h2
        by_cases hm : (t seq).members = none ∨ (t seq).members = some [] ∨
            (t seq).status = 400 ∨ (t seq).status = 500
        · rcases hm with h | h | h | h
          · exact ⟨1, by simp, by simp [h5, h2, h]⟩
          · exact ⟨1, by simp, by simp [h5, h2, h]⟩
          · rw [h200] at h
            exact absurd h (by decide)
          · exact absurd h h5
        · push_neg at hm
          obtain ⟨k, hk, hoff⟩ := ih
          refine ⟨k + 1, by simpa using Nat.succ_le_succ hk, ?_⟩
          simp [h5, h2, hm.1, hm.2.1, hm.2.2.1, hoff]

/-- The offsets a category skip walk fetches form an initial segment of the
offset list. -/
theorem categoryLoop_offsets_take (arg : String) (t : Nat → HttpResponse) :
    ∀ l : List Nat, ∃ k, k ≤ l.length ∧ (categoryLoop arg t l).offsets = l.take k := by
  intro l
  induction l with
  | nil => exact ⟨0, by simp [categoryLoop]⟩
  | cons seq rest ih =>
    rw [categoryLoop]
    by_cases h5 : (t seq).status = 500
    · exact ⟨1, by simp, by simp [h5]⟩
    · by_cases h2 : (t seq).status ≠ 200
      · by_cases hc : (strContains (t seq).errMessage skipRangeMsg ||
            strContains (t seq).errMessage internalErrMsg : Bool)
        · exact ⟨1, by simp, by simp [h5, h2, hc]⟩
        · exact ⟨1, by simp, by simp [h5, h2, hc]⟩
      · cases hm : (t seq).members with
        | none => exact ⟨1, by simp, by simp [h5, h2, hm]⟩
        | some ms =>
          obtain ⟨k, hk, hoff⟩ := ih
          refine ⟨k + 1, by simpa using Nat.succ_le_succ hk, ?_⟩
          simp [h5, h2, hm, hoff]

/-! ## C1 -/

/-- The get-all skip loop stops at the first 200 response with an empty or
absent member list, fetching exactly the earlier offsets plus that one and
recording exactly the members of the earlier pages in order. -/
theorem getAllLoop_empty_stop (t : Nat → HttpResponse) (l1 l2 : List Nat) (o : Nat)
    (h1 : ∀ x ∈ l1, (t x).status = 200 ∧ (t x).members ≠ none ∧ (t x).members ≠ some [])
    (h2 : (t o).status = 200)
    (h3 : (t o).members = none ∨ (t o).members = some []) :
    (getAllLoop t (l1 ++ o :: l2)).stop = StopKind.emptyPage ∧
    (getAllLoop t (l1 ++ o :: l2)).offsets = l1 ++ [o] ∧
    (getAllLoop t (l1 ++ o :: l2)).recorded = concatMembers t l1 := by
  induction l1 with
  | nil =>
    simp only [List.nil_append]
    rw [getAllLoop, h2]
    rcases h3 with h | h <;> simp [h, concatMembers]
  | cons a l1' ih =>
    obtain ⟨ha, hmne, hmnil⟩ := h1 a (by simp)
    have ih' := ih (fun x hx => h1 x (by simp [hx]))
    obtain ⟨ms, hms⟩ : ∃ ms, (t a).members = some ms := by
      cases hmem : (t a).members with
      | none => exact absurd hmem hmne
      | some ms => exact ⟨ms, rfl⟩
    have hmsne : ms ≠ [] := by
      intro hnil
      exact hmnil (by rw [hms, hnil])
    simp only [List.cons_append]
    rw [getAllLoop, ha]
    have hcond : ¬((t a).members = none ∨ (t a).members = some [] ∨ (200 : Nat) = 400) := by
      rw [hms]
      simp [hmsne]
    simp only [hcond]
    refine ⟨by simpa using ih'.1, ?_, ?_⟩
    · simpa using ih'.2.1
    · rw [concatMembers]
      simpa [hms] using ih'.2.2

/-- The fail-keyword skip loop stops at the first 200 response with an empty
or absent member list, fetching exactly the earlier offsets plus that one and
recording exactly the keyword-matching entries of the earlier pages in
order. -/
theorem failLoop_empty_stop (t : Nat → HttpResponse) (l1 l2 : List Nat) (o : Nat)
    (h1 : ∀ x ∈ l1, (t x).status = 200 ∧ (t x).members ≠ none ∧ (t x).members ≠ some [])
    (h2 : (t o).status = 200)
    (h3 : (t o).members = none ∨ (t o).members = some []) :
    (failLoop t (l1 ++ o :: l2)).stop = StopKind.emptyPage ∧
    (failLoop t (l1 ++ o :: l2)).offsets = l1 ++ [o] ∧
    (failLoop t (l1 ++ o :: l2)).recorded = concatFailMatches t l1 := by
  induction l1 with
  | nil =>
    simp only [List.nil_append]
    rw [failLoop, h2]
    rcases h3 with h | h <;> simp [h, concatFailMatches]
  | cons a l1' ih =>
    obtain ⟨ha, hmne, hmnil⟩ := h1 a (by simp)
    have ih' := ih (fun x hx => h1 x (by simp [hx]))
    obtain ⟨ms, hms⟩ : ∃ ms, (t a).members = some ms := by
      cases hmem : (t a).members with
      | none => exact absurd hmem hmne
      | some ms => exact ⟨ms, rfl⟩
    have hmsne : ms ≠ [] := by
      intro hnil
      exact hmnil (by rw [hms, hnil])
    simp only [List.cons_append]
    rw [failLoop, ha]
    have hcond : ¬((t a).members = none ∨ (t a).members = some [] ∨ (200 : Nat) = 400 ∨
        (200 : Nat) = 500) := by
      rw [hms]
      simp [hmsne]
    simp only [hcond]
    refine ⟨by simpa using ih'.1, ?_, ?_⟩
    · simpa using ih'.2.1
    · rw [concatFailMatches]
      simpa [hms] using ih'.2.2

/-- The message-ID skip loop stops at the first 200 response with an empty or
absent member list, fetching exactly the earlier offsets plus that one and
recording exactly the ID-matching entries of the earlier pages in order. -/
theorem messageIdLoop_empty_stop (version arg : String) (t : Nat → HttpResponse)
    (l1 l2 : List Nat) (o : Nat)
    (h1 : ∀ x ∈ l1, (t x).status = 200 ∧ (t x).members ≠ none ∧ (t x).members ≠ some [])
    (h2 : (t o).status = 200)
    (h3 : (t o).members = none ∨ (t o).members = some []) :
    (messageIdLoop version arg t (l1 ++ o :: l2)).stop = StopKind.emptyPage ∧
    (messageIdLoop version arg t (l1 ++ o :: l2)).offsets = l1 ++ [o] ∧
    (messageIdLoop version arg t (l1 ++ o :: l2)).recorded =
      concatMessageIdMatches version arg t l1 := by
  induction l1 with
  | nil =>
    simp only [List.nil_append]
    rw [messageIdLoop, h2]
    rcases h3 with h | h <;> simp [h, concatMessageIdMatches]
  | cons a l1' ih =>
    obtain ⟨ha, hmne, hmnil⟩ := h1 a (by simp)
    have ih' := ih (fun x hx => h1 x (by simp [hx]))
    obtain ⟨ms, hms⟩ : ∃ ms, (t a).members = some ms := by
      cases hmem : (t a).members with
      | none => exact absurd hmem hmne
      | some ms => exact ⟨ms, rfl⟩
    have hmsne : ms ≠ [] := by
      intro hnil
      exact hmnil (by rw [hms, hnil])
    simp only [List.cons_append]
    rw [messageIdLoop, ha]
    have hcond : ¬((t a).members = none ∨ (t a).members = some [] ∨ (200 : Nat) = 400 ∨
        (200 : Nat) = 500) := by
      rw [hms]
      simp [hmsne]
    simp only [hcond]
    refine ⟨by simpa using ih'.1, ?_, ?_⟩
    · simpa using ih'.2.1
    · rw [concatMessageIdMatches]
      simpa [hms] using ih'.2.2

/-- C1 (amended): in the get-all, fail-keyword and message-ID skip loops, if
every earlier offset returned a 200 page with a non-empty member list and
offset `o` returns a 200 response whose member list is absent or empty, the
walk stops successfully exactly at `o`, having fetched precisely the earlier
offsets plus `o`, and the recorded entries are exactly the entries of the
earlier pages matching the mode's predicate (every member in get-all mode;
keyword and message-ID matches in the scan modes) in server-returned order
(page order, then in-page order), with nothing added by the walker. The
category-mode loop does not have this empty-page stop (see the
counterexample). -/
theorem C1_walker_stops_on_empty_page (t : Nat → HttpResponse) (version arg : String)
    (l1 l2 : List Nat) (o : Nat)
    (h1 : ∀ x ∈ l1, (t x).status = 200 ∧ (t x).members ≠ none ∧ (t x).members ≠ some [])
    (h2 : (t o).status = 200)
    (h3 : (t o).members = none ∨ (t o).members = some []) :
    ((getAllLoop t (l1 ++ o :: l2)).stop = StopKind.emptyPage ∧
      (getAllLoop t (l1 ++ o :: l2)).offsets = l1 ++ [o] ∧
      (getAllLoop t (l1 ++ o :: l2)).recorded = concatMembers t l1) ∧
    ((failLoop t (l1 ++ o :: l2)).stop = StopKind.emptyPage ∧
      (failLoop t (l1 ++ o :: l2)).offsets = l1 ++ [o] ∧
      (failLoop t (l1 ++ o :: l2)).recorded = concatFailMatches t l1) ∧
    ((messageIdLoop version arg t (l1 ++ o :: l2)).stop = StopKind.emptyPage ∧
      (messageIdLoop version arg t (l1 ++ o :: l2)).offsets = l1 ++ [o] ∧
      (messageIdLoop version arg t (l1 ++ o :: l2)).recorded =
        concatMessageIdMatches version arg t l1) :=
  ⟨getAllLoop_empty_stop t l1 l2 o h1 h2 h3,
   failLoop_empty_stop t l1 l2 o h1 h2 h3,
   messageIdLoop_empty_stop version arg t l1 l2 o h1 h2 h3⟩

set_option maxRecDepth 100000

/-- C1 witness: the amended theorem applied to the five-page mock transport
for all three loops, plus two concrete end-to-end runs: `get_LC_logs` on the
five-pages-then-empty transport yields exactly 250 entries in original order
stopping at the empty page, and `get_LC_log_failures` on the mixed transport
records exactly its two keyword-matching entries in server order and stops at
the empty page. -/
theorem C1_walker_stops_on_empty_page_wit :
    (((getAllLoop t250 ([50, 100, 150, 200] ++ 250 :: [])).stop = StopKind.emptyPage ∧
      (getAllLoop t250 ([50, 100, 150, 200] ++ 250 :: [])).offsets = [50, 100, 150, 200] ++ [250] ∧
      (getAllLoop t250 ([50, 100, 150, 200] ++ 250 :: [])).recorded =
        concatMembers t250 [50, 100, 150, 200]) ∧
    ((failLoop t250 ([50, 100, 150, 200] ++ 250 :: [])).stop = StopKind.emptyPage ∧
      (failLoop t250 ([50, 100, 150, 200] ++ 250 :: [])).offsets = [50, 100, 150, 200] ++ [250] ∧
      (failLoop t250 ([50, 100, 150, 200] ++ 250 :: [])).recorded =
        concatFailMatches t250 [50, 100, 150, 200]) ∧
    ((messageIdLoop "new" "WRK0001" t250 ([50, 100, 150, 200] ++ 250 :: [])).stop =
        StopKind.emptyPage ∧
      (messageIdLoop "new" "WRK0001" t250 ([50, 100, 150, 200] ++ 250 :: [])).offsets =
        [50, 100, 150, 200] ++ [250] ∧
      (messageIdLoop "new" "WRK0001" t250 ([50, 100, 150, 200] ++ 250 :: [])).recorded =
        concatMessageIdMatches "new" "WRK0001" t250 [50, 100, 150, 200])) ∧
    (get_LC_logs t250).recorded = (List.range 250).map mkEntry ∧
    (get_LC_logs t250).stop = StopKind.emptyPage ∧
    (get_LC_logs t250).offsets = [0, 50, 100, 150, 200, 250] ∧
    get_LC_log_failures tMix =
      ⟨[failEntryA, failEntryC], StopKind.emptyPage, [0, 50, 100]⟩ := by
  refine ⟨C1_walker_stops_on_empty_page t250 "new" "WRK0001" [50, 100, 150, 200] [] 250
    (by decide) (by decide) (Or.inr (by decide)), ?_, ?_, ?_, ?_⟩
  · decide
  · decide
  · decide
  · decide

/-- C1 counterexample: the category-mode walker does not stop at a 200
response with an empty member list. Against `tCat` the page at offset 50 is
200 with `Members == []`, yet the walk goes on to fetch offsets 100 and 150
and records the entry delivered at offset 100. -/
theorem C1_category_walks_past_empty_page :
    (tCat 50).status = 200 ∧ (tCat 50).members = some [] ∧
    get_category_entries "audit" tCat =
      some ⟨[auditEntry], StopKind.skipOutOfRange, [0, 50, 100, 150]⟩ := by
  refine ⟨by decide, by decide, ?_⟩
  decide

/-! ## C2 -/

/-- C2 (amended): for every non-200 skip-loop response, the fail-keyword,
message-ID and category modes classify it as end-of-log exactly when the
status is 500 or the error text contains one of the two literal substrings,
while the `--get-all` mode accepts only the skip-out-of-range substring (it
never tests `"internal error"`); in both classifications every other non-200
response is a fatal stop surfacing the status code and error body text. -/
theorem C2_nonok_classification (r : HttpResponse) (h : r.status ≠ 200) :
    (classify_keyword_modes r = FetchKind.endOfLogStop ↔
      (r.status = 500 ∨ strContains r.errMessage skipRangeMsg = true ∨
        strContains r.errMessage internalErrMsg = true)) ∧
    (classify_get_all r = FetchKind.endOfLogStop ↔
      (r.status = 500 ∨ strContains r.errMessage skipRangeMsg = true)) ∧
    (classify_get_all r ≠ FetchKind.endOfLogStop →
      classify_get_all r = FetchKind.fatalStop r.status r.errMessage) ∧
    (classify_keyword_modes r ≠ FetchKind.endOfLogStop →
      classify_keyword_modes r = FetchKind.fatalStop r.status r.errMessage) := by
  by_cases h5 : r.status = 500
  · simp [classify_keyword_modes, classify_get_all, h5]
  · by_cases hskip : strContains r.errMessage skipRangeMsg
    · simp [classify_keyword_modes, classify_get_all, h5, h, hskip]
    · by_cases hint : strContains r.errMessage internalErrMsg
      · simp [classify_keyword_modes, classify_get_all, h5, h, hskip, hint]
      · simp [classify_keyword_modes, classify_get_all, h5, h, hskip, hint]

/-- C2 witness: a 404 carrying the skip-out-of-range text is an end-of-log
stop in both classifications. -/
theorem C2_nonok_classification_wit :
    classify_get_all ⟨404, none, skipRangeMsg⟩ = FetchKind.endOfLogStop ∧
    classify_keyword_modes ⟨404, none, skipRangeMsg⟩ = FetchKind.endOfLogStop := by
  have h := C2_nonok_classification ⟨404, none, skipRangeMsg⟩ (by decide)
  exact ⟨h.2.1.mpr (Or.inr (by decide)), h.1.mpr (Or.inr (Or.inl (by decide)))⟩

/-- C2 counterexample: in the `--get-all` mode, a non-200, non-500 response
whose error text is exactly `"internal error"` is a fatal stop, although the
claim says `"internal error"` means end-of-log in every retrieval mode. -/
theorem C2_internal_error_fatal_in_get_all :
    strContains "internal error" internalErrMsg = true ∧
    classify_get_all ⟨404, none, "internal error"⟩ = FetchKind.fatalStop 404 "internal error" ∧
    classify_keyword_modes ⟨404, none, "internal error"⟩ = FetchKind.endOfLogStop := by
  refine ⟨by decide, by decide, by decide⟩

/-! ## C3 -/

/-- C3 (amended): when a fail-keyword, message-ID or category scan ends with
zero recorded entries, the mode's output file is gone after normal completion
(offsets exhausted), after an empty-page break, and after a recognized
skip-out-of-range stop — but on the HTTP-500 stop only the category mode
deletes the zero-match file; the fail-keyword and message-ID modes close and
keep it (their 500 handler exits before the count check). -/
theorem C3_zero_match_cleanup (t : Nat → HttpResponse) (version arg : String) :
    (((get_LC_log_failures t).stop = StopKind.completed ∨
        (get_LC_log_failures t).stop = StopKind.emptyPage ∨
        (get_LC_log_failures t).stop = StopKind.skipOutOfRange) →
      (get_LC_log_failures t).recorded.length = 0 → fail_run_file_exists t = false) ∧
    (((get_message_id version arg t).stop = StopKind.completed ∨
        (get_message_id version arg t).stop = StopKind.emptyPage ∨
        (get_message_id version arg t).stop = StopKind.skipOutOfRange) →
      (get_message_id version arg t).recorded.length = 0 →
      message_id_run_file_exists version arg t = false) ∧
    ((get_LC_log_failures t).stop = StopKind.http500 → fail_run_file_exists t = true) ∧
    ((get_message_id version arg t).stop = StopKind.http500 →
      message_id_run_file_exists version arg t = true) ∧
    (∀ w : WalkOut, get_category_entries arg t = some w →
      (w.stop = StopKind.completed ∨ w.stop = StopKind.skipOutOfRange ∨
        w.stop = StopKind.http500) →
      w.recorded.length = 0 → category_run_file_exists arg t = false) := by
  have hfail : ∀ w : WalkOut,
      (w.stop = StopKind.completed ∨ w.stop = StopKind.emptyPage ∨
        w.stop = StopKind.skipOutOfRange) →
      w.recorded.length = 0 → fail_file_after w = false := by
    intro w hstop hcount
    rcases hstop with h | h | h <;> simp [fail_file_after, h, hcount]
  have hmsg : ∀ w : WalkOut,
      (w.stop = StopKind.completed ∨ w.stop = StopKind.emptyPage ∨
        w.stop = StopKind.skipOutOfRange) →
      w.recorded.length = 0 → message_id_file_after w = false := by
    intro w hstop hcount
    rcases hstop with h | h | h <;> simp [message_id_file_after, h, hcount]
  have hcat : ∀ w : WalkOut,
      (w.stop = StopKind.completed ∨ w.stop = StopKind.skipOutOfRange ∨
        w.stop = StopKind.http500) →
      w.recorded.length = 0 → category_file_after w = false := by
    intro w hstop hcount
    rcases hstop with h | h | h <;> simp [category_file_after, h, hcount]
  refine ⟨fun hstop hcount => hfail _ hstop hcount,
    fun hstop hcount => hmsg _ hstop hcount,
    ?_, ?_, ?_⟩
  · intro h
    show fail_file_after (get_LC_log_failures t) = true
    simp [fail_file_after, h]
  · intro h
    show message_id_file_after (get_message_id version arg t) = true
    simp [message_id_file_after, h]
  · intro w hw hstop hcount
    show category_run_file_exists arg t = false
    rw [category_run_file_exists, hw]
    exact hcat w hstop hcount

/-- C3 witness: against a transport whose first skip fetch reports
skip-out-of-range, the zero-match fail scan and category scan both leave no
output file. -/
theorem C3_zero_match_cleanup_wit :
    fail_run_file_exists tSkip0 = false ∧
    category_run_file_exists "audit" tSkip0 = false := by
  have h := C3_zero_match_cleanup tSkip0 "new" "audit"
  refine ⟨h.1 (Or.inr (Or.inr (by decide))) (by decide), ?_⟩
  exact h.2.2.2.2 ⟨[], StopKind.skipOutOfRange, [0, 50]⟩ (by decide) (by decide) (by decide)

/-- C3 counterexample: a fail-keyword scan that records nothing and then hits
HTTP 500 on a skip fetch terminates with the output file still existing,
although the claim requires the file to be gone on every terminating path
including HTTP 500. -/
theorem C3_http500_keeps_file_fail_mode :
    (get_LC_log_failures t500).stop = StopKind.http500 ∧
    (get_LC_log_failures t500).recorded.length = 0 ∧
    fail_run_file_exists t500 = true := by
  refine ⟨by decide, by decide, by decide⟩

/-! ## C4 -/

/-- C4 (code bug): line 362 validates the category argument after lowering
it, so `"Audit"` is accepted, but line 383 compares the lowered entry field
against the argument as supplied, so with argument `"Audit"` no entry can
ever match — here an entry whose `Oem.Dell.Category` equals the argument
case-insensitively is excluded, and the same run with the lowercase argument
retains it. The validation lowering shows the intent is case-insensitive
acceptance; the comparison simply forgot the `.lower()` on the argument. -/
theorem C4_mixed_case_category_never_matches :
    pyLower "Audit" ∈ validCategories ∧
    pyLower auditEntry.oemDellCategory = pyLower "Audit" ∧
    categoryPred "Audit" auditEntry = false ∧
    get_category_entries "Audit" tCatAudit =
      some ⟨[], StopKind.skipOutOfRange, [0, 50]⟩ ∧
    get_category_entries "audit" tCatAudit =
      some ⟨[auditEntry], StopKind.skipOutOfRange, [0, 50]⟩ := by
  refine ⟨by decide, by decide, by decide, by decide, by decide⟩

/-! ## C5 -/

/-- C5: under the "new" convention `"Update.1.0.WRK0001"` normalizes to its
final dot-separated segment `"WRK0001"`; under "old" normalization is the
identity; and an entry matches exactly when the lowercased normalized ID
occurs as a contiguous substring of the lowercased caller-supplied
comma-separated ID list. -/
theorem C5_message_id_normalize_and_match :
    normalize_message_id "new" "Update.1.0.WRK0001" = "WRK0001" ∧
    (∀ raw, normalize_message_id "old" raw = raw) ∧
    (∀ arg version raw, message_id_match arg version raw = true ↔
      ∃ p q, (pyLower arg).data =
        p ++ (pyLower (normalize_message_id version raw)).data ++ q) := by
  refine ⟨by decide, ?_, ?_⟩
  · intro raw
    rw [normalize_message_id, if_neg (by decide)]
  · intro arg version raw
    exact strContains_iff (pyLower arg) (pyLower (normalize_message_id version raw))

/-! ## C6 -/

/-- The offsets invariant holds of `0` followed by the first `k ≤ 2000`
positive multiples of 50. -/
theorem offsetsSpec_closed (k : Nat) (hk : k ≤ 2000) :
    offsetsSpec (0 :: (List.range k).map (fun j => 50 * j + 50)) := by
  refine ⟨k, hk, rfl, ?_, ?_, ?_⟩
  · refine List.pairwise_cons.mpr ⟨?_, ?_⟩
    · intro b hb
      obtain ⟨j, hj, rfl⟩ := List.mem_map.mp hb
      omega
    · exact List.Pairwise.map _ (fun a b hab => by omega) (List.pairwise_lt_range k)
  · intro x hx
    rcases List.mem_cons.mp hx with rfl | hx
    · omega
    · obtain ⟨j, hj, rfl⟩ := List.mem_map.mp hx
      have hjk : j < k := List.mem_range.mp hj
      exact ⟨by omega, by omega⟩
  · simp only [List.length_cons, List.length_map, List.length_range]
    omega

/-- The offsets invariant holds of `0` followed by any `k`-element initial
segment of the offset list. -/
theorem offsetsSpec_take (k : Nat) (hk : k ≤ 2000) : offsetsSpec (0 :: numberList.take k) := by
  have htake : numberList.take k = (List.range k).map (fun j => 50 * j + 50) := by
    rw [numberList_eq, ← List.map_take, List.take_range, Nat.min_eq_left hk]
  rw [htake]
  exact offsetsSpec_closed k hk

/-- The offsets invariant holds of the single implicit fetch at offset 0. -/
theorem offsetsSpec_single : offsetsSpec [0] := by
  simpa using offsetsSpec_closed 0 (by omega)

/-- C6: for every transport, every mode's walk fetches offsets that are
exactly `0, 50, 100, ...`: the implicit offset 0 followed by the first
`k ≤ 2000` entries of the offset list; strictly increasing (no offset is
fetched twice), each a multiple of 50 bounded by 100000, with at most 2000
skip fetches (2001 fetches in all) even when no terminating condition is
observed — for the get-all, fail-keyword and message-ID walks, and for the
category walk whenever its argument validates. -/
theorem C6_offsets_bounded_multiples (t : Nat → HttpResponse) (version arg : String) :
    offsetsSpec (get_LC_logs t).offsets ∧
    offsetsSpec (get_LC_log_failures t).offsets ∧
    offsetsSpec (get_message_id version arg t).offsets ∧
    (∀ w : WalkOut, get_category_entries arg t = some w → offsetsSpec w.offsets) := by
  refine ⟨?_, ?_, ?_, ?_⟩
  · by_cases h2 : (t 0).status ≠ 200
    · rw [get_LC_logs, if_pos h2]
      exact offsetsSpec_single
    · cases hm : (t 0).members with
      | none =>
        rw [get_LC_logs, if_neg h2, hm]
        exact offsetsSpec_single
      | some ms =>
        rw [get_LC_logs, if_neg h2, hm]
        obtain ⟨k, hk, hoff⟩ := getAllLoop_offsets_take t numberList
        rw [numberList_len] at hk
        simpa [hoff] using offsetsSpec_take k hk
  · cases hm : (t 0).members with
    | none =>
      rw [get_LC_log_failures, hm]
      exact offsetsSpec_single
    | some ms =>
      rw [get_LC_log_failures, hm]
      obtain ⟨k, hk, hoff⟩ := failLoop_offsets_take t numberList
      rw [numberList_len] at hk
      simpa [hoff] using offsetsSpec_take k hk
  · cases hm : (t 0).members with
    | none =>
      rw [get_message_id, hm]
      exact offsetsSpec_single
    | some ms =>
      rw [get_message_id, hm]
      obtain ⟨k, hk, hoff⟩ := messageIdLoop_offsets_take version arg t numberList
      rw [numberList_len] at hk
      simpa [hoff] using offsetsSpec_take k hk
  · intro w hw
    rw [get_category_entries] at hw
    by_cases hv : pyLower arg ∉ validCategories
    · rw [if_pos hv] at hw
      exact Option.noConfusion hw
    · rw [if_neg hv] at hw
      cases hm : (t 0).members with
      | none =>
        rw [hm] at hw
        injection hw with hw'
        rw [← hw']
        exact offsetsSpec_single
      | some ms =>
        rw [hm] at hw
        injection hw with hw'
        obtain ⟨k, hk, hoff⟩ := categoryLoop_offsets_take arg t numberList
        rw [numberList_len] at hk
        rw [← hw']
        simpa [hoff] using offsetsSpec_take k hk

/-! ## C7 -/

/-- C7: the severity argument maps, case-insensitively, `informational` to
the `Severity eq 'OK'` filter URI, `warning` to `Severity eq 'Warning'`, and
`critical` to `Severity eq 'Critical'`; any other value yields `none`, the
`InvalidArgument` exit taken before any request is issued. -/
theorem C7_severity_filter_mapping (arg : String) :
    (pyLower arg = "informational" → get_specific_severity_logs arg = some uriSeverityOK) ∧
    (pyLower arg = "warning" → get_specific_severity_logs arg = some uriSeverityWarning) ∧
    (pyLower arg = "critical" → get_specific_severity_logs arg = some uriSeverityCritical) ∧
    (pyLower arg ≠ "informational" → pyLower arg ≠ "warning" → pyLower arg ≠ "critical" →
      get_specific_severity_logs arg = none) ∧
    strContains uriSeverityOK "Severity eq \x27OK\x27" = true ∧
    strContains uriSeverityWarning "Severity eq \x27Warning\x27" = true ∧
    strContains uriSeverityCritical "Severity eq \x27Critical\x27" = true := by
  refine ⟨?_, ?_, ?_, ?_, by decide, by decide, by decide⟩
  · intro h
    simp [get_specific_severity_logs, h]
  · intro h
    simp [get_specific_severity_logs, h]
  · intro h
    simp [get_specific_severity_logs, h]
  · intro h1 h2 h3
    simp [get_specific_severity_logs, h1, h2, h3]

/-- C7 witness: `"CRITICAL"` (upper case) produces the Critical filter URI,
and an unsupported value produces the pre-request invalid-argument exit. -/
theorem C7_severity_filter_mapping_wit :
    get_specific_severity_logs "CRITICAL" = some uriSeverityCritical ∧
    get_specific_severity_logs "fatal" = none :=
  ⟨(C7_severity_filter_mapping "CRITICAL").2.2.1 (by decide),
   (C7_severity_filter_mapping "fatal").2.2.2.1 (by decide) (by decide) (by decide)⟩

/-! ## C8 -/

theorem writeEntryItems_eq_foldr (l : List (String × String)) :
    writeEntryItems l = (l.map (fun ii => ii.1 ++ ": " ++ ii.2 ++ "\n")).foldr (· ++ ·) "" := by
  induction l with
  | nil => rfl
  | cons x xs ih => rw [writeEntryItems, List.map_cons, List.foldr_cons, ih]

/-- C8 (amended): in the get-all, fail-keyword and message-ID modes the sink
writes, per selected entry, one `field: value` line per attribute followed by
a blank separating line; in the category mode it instead writes the Python
`str()` representation of the entry dict followed by a blank line. -/
theorem C8_record_format (e : LogEntry) :
    record_all e = specFieldValueBlock e ∧
    record_fail e = specFieldValueBlock e ∧
    record_messageid e = specFieldValueBlock e ∧
    record_category e = pyDictRepr e ++ "\n\n" := by
  refine ⟨?_, ?_, ?_, rfl⟩ <;>
    simp [record_all, record_fail, record_messageid, specFieldValueBlock,
      writeEntryItems_eq_foldr]

/-- C8 counterexample: for an entry with the single attribute
`Severity: OK`, the category-mode sink writes the dict repr, not the
`field: value` line the claim requires of every client-side mode. -/
theorem C8_category_record_not_field_value :
    record_category ⟨[("Severity", "OK")], "Audit"⟩ = "\x7b\x27Severity\x27: \x27OK\x27\x7d\n\n" ∧
    record_category ⟨[("Severity", "OK")], "Audit"⟩ ≠
      specFieldValueBlock ⟨[("Severity", "OK")], "Audit"⟩ ∧
    specFieldValueBlock ⟨[("Severity", "OK")], "Audit"⟩ = "Severity: OK\n\n" := by
  refine ⟨by decide, by decide, by decide⟩

/-! ## C9 -/

/-- C9 (code bug): the resolved TLS toggle defaults to no-verification and
is passed on the log-collection requests in both auth branches, and on the
firmware-version request in the token branch — but line 79 hard-codes
`verify=False` on the firmware-version request under basic auth, so with
`--ssl true` and username/password auth that one request ignores the
toggle, contradicting the claim that every request uses it. -/
theorem C9_firmware_request_ignores_ssl_toggle :
    resolve_verify_cert (some "true") = true ∧
    resolve_verify_cert none = false ∧
    verify_flag_lclog_request (resolve_verify_cert (some "true")) false = true ∧
    verify_flag_lclog_request (resolve_verify_cert (some "true")) true = true ∧
    verify_flag_firmware_request (resolve_verify_cert (some "true")) true = true ∧
    verify_flag_firmware_request (resolve_verify_cert (some "true")) false = false := by
  refine ⟨by decide, by decide, by decide, by decide, by decide, by decide⟩

/-! ## C10 -/

/-- C10: a 401 on the firmware-version fetch returns from
`get_iDRAC_version` without assigning the global `iDRAC_version`, so the
message-ID normalization then reads an unbound name (modelled `none`); the
normalization is well-defined exactly when version detection ended in an
assignment, which requires a 200 response. -/
theorem C10_message_id_requires_version_detection (status : Nat) (fw raw : String) :
    get_iDRAC_version 401 fw = VersionOutcome.unassigned ∧
    normalize_with_global (iDRAC_version_after (get_iDRAC_version 401 fw)) raw = none ∧
    ((∃ v, normalize_with_global (iDRAC_version_after (get_iDRAC_version status fw)) raw =
        some v) ↔
      ∃ v, get_iDRAC_version status fw = VersionOutcome.assigned v) ∧
    (∀ v, get_iDRAC_version status fw = VersionOutcome.assigned v → status = 200) := by
  refine ⟨?_, ?_, ⟨?_, ?_⟩, ?_⟩
  · rw [get_iDRAC_version, if_pos rfl]
  · rw [get_iDRAC_version, if_pos rfl]
    rfl
  · rintro ⟨v, hv⟩
    cases hg : get_iDRAC_version status fw with
    | assigned w => exact ⟨w, rfl⟩
    | unassigned => rw [hg] at hv; simp [iDRAC_version_after, normalize_with_global] at hv
    | exited => rw [hg] at hv; simp [iDRAC_version_after, normalize_with_global] at hv
    | crashed => rw [hg] at hv; simp [iDRAC_version_after, normalize_with_global] at hv
  · rintro ⟨v, hv⟩
    rw [hv]
    exact ⟨normalize_message_id v raw, rfl⟩
  · intro v hv
    by_cases h401 : status = 401
    · rw [get_iDRAC_version, if_pos h401] at hv
      simp at hv
    · by_cases h200 : status = 200
      · exact h200
      · rw [get_iDRAC_version, if_neg h401, if_pos h200] at hv
        simp at hv

/-- C5 witness: the normalization and match semantics at the spec's concrete
example inputs. -/
theorem C5_message_id_normalize_and_match_wit :
    normalize_message_id "old" "Update.1.0.WRK0001" = "Update.1.0.WRK0001" ∧
    (message_id_match "WRK0001,SUP0516" "new" "Update.1.0.WRK0001" = true ↔
      ∃ p q, (pyLower "WRK0001,SUP0516").data =
        p ++ (pyLower (normalize_message_id "new" "Update.1.0.WRK0001")).data ++ q) :=
  ⟨C5_message_id_normalize_and_match.2.1 "Update.1.0.WRK0001",
   C5_message_id_normalize_and_match.2.2 "WRK0001,SUP0516" "new" "Update.1.0.WRK0001"⟩

/-- C6 witness: the offset invariants instantiated at the five-page mock
transport for the get-all, fail-keyword and message-ID walks, and at the
skip-out-of-range mock for the category walk. -/
theorem C6_offsets_bounded_multiples_wit :
    offsetsSpec (get_LC_logs t250).offsets ∧
    offsetsSpec (get_LC_log_failures t250).offsets ∧
    offsetsSpec (get_message_id "new" "WRK0001" t250).offsets ∧
    offsetsSpec (WalkOut.mk [] StopKind.skipOutOfRange [0, 50]).offsets := by
  refine ⟨(C6_offsets_bounded_multiples t250 "new" "WRK0001").1,
    (C6_offsets_bounded_multiples t250 "new" "WRK0001").2.1,
    (C6_offsets_bounded_multiples t250 "new" "WRK0001").2.2.1,
    (C6_offsets_bounded_multiples tSkip0 "new" "audit").2.2.2
      ⟨[], StopKind.skipOutOfRange, [0, 50]⟩ (by decide)⟩

/-- C10 witness: the 401 outcome and the resulting unbound-global
normalization at concrete inputs. -/
theorem C10_message_id_requires_version_detection_wit :
    get_iDRAC_version 401 "7.00.00.00" = VersionOutcome.unassigned ∧
    normalize_with_global (iDRAC_version_after (get_iDRAC_version 401 "7.00.00.00"))
        "Update.1.0.WRK0001" = none :=
  ⟨(C10_message_id_requires_version_detection 401 "7.00.00.00" "Update.1.0.WRK0001").1,
   (C10_message_id_requires_version_detection 401 "7.00.00.00" "Update.1.0.WRK0001").2.1⟩
